import Mathlib

/-
Shallow embedding of `static/script.js` (Amazon N-Gram Analysis front end).

The source file holds two variants of the script:
  * variant A (the simpler one): panels upload / settings / progress /
    results / error, thresholds `min_clicks` / `min_spend`;
  * variant B (the richer one): panels upload / process / progress /
    results / error, plus analytics and archive features.
Variant B carries all the state and operations the claims are about, so it
is embedded at top level; variant A's panel controller is embedded in the
`VariantA` namespace.

Modelling conventions:
  * DOM element visibility (`style.display`) is a `Bool` per element;
  * JavaScript `null`/`undefined` values are `Option`;
  * JavaScript numbers are exact rationals `ℚ` (byte counts are `ℕ`);
    `Number.prototype.toFixed` is embedded as exact rounding to the nearest
    multiple of 1/10 resp. 1/100, ties rounded up, which agrees with the
    IEEE-754 computation on every concrete input used below;
  * functions that may issue a `fetch` return, besides the new state, the
    list of requests they issued; the response a `fetch` would produce is
    passed in as an `Except Unit _` argument (`.error` = rejected promise
    or JSON parse failure caught by the surrounding `try`/`catch`).
-/

/-- Embedding of JavaScript `String.prototype.toLowerCase` (ASCII data). -/
def jsToLowerCase (s : String) : String := ⟨s.data.map Char.toLower⟩

/-- Embedding of JavaScript `String.prototype.endsWith`. -/
def jsEndsWith (s suf : String) : Bool := suf.data.isSuffixOf s.data

/-- JavaScript falsiness `!x` of a nullable string: true on
null/undefined and on the empty string. -/
def jsStrFalsy : Option String → Bool
  | none => true
  | some str => str.isEmpty

/-- Renders the natural number `n` (tenths) as the string `n10.n%10`,
the shape produced by `toFixed(1)` for non-negative values. -/
def toFixed1Nat (n : ℕ) : String := toString (n / 10) ++ "." ++ toString (n % 10)

/-- Embedding of JavaScript `x.toFixed(1)` for non-negative `x`: round to
the nearest tenth (ties up) and print with exactly one decimal digit. -/
def toFixed1 (q : ℚ) : String := toFixed1Nat (⌊q * 10 + 1/2⌋).toNat

/-- Numeric value denoted by the `toFixed(1)` rendering of `q`. -/
def toFixed1Q (q : ℚ) : ℚ := ((⌊q * 10 + 1/2⌋ : ℤ) : ℚ) / 10

/-- Renders the natural number `n` (hundredths) the way
`parseFloat(x.toFixed(2))` stringifies: trailing zeros dropped. -/
def stripFixed2Nat (n : ℕ) : String :=
  if n % 100 = 0 then toString (n / 100)
  else if n % 10 = 0 then toString (n / 100) ++ "." ++ toString (n / 10 % 10)
  else toString (n / 100) ++ "." ++ toString (n / 10 % 10) ++ toString (n % 10)

/-- Embedding of JavaScript `parseFloat(x.toFixed(2))` rendered back to a
string, for non-negative `x`: round to the nearest hundredth (ties up),
then print with trailing fractional zeros stripped. -/
def stripFixed2 (q : ℚ) : String := stripFixed2Nat (⌊q * 100 + 1/2⌋).toNat

namespace VariantA

/-- Visibility of the five primary-flow panels of the simpler variant. -/
structure Panels where
  uploadSection : Bool := false
  settingsSection : Bool := false
  progressSection : Bool := false
  resultsSection : Bool := false
  errorSection : Bool := false
deriving DecidableEq, Repr

/-- Embedding of `showSection` of the simpler variant (first document of
`static/script.js`, lines 211-238): hide every primary-flow panel, then
show the one(s) the requested name implies. -/
def showSection (sec : String) (_prev : Panels) : Panels :=
  if sec = "upload" then { uploadSection := true }
  else if sec = "settings" then { uploadSection := true, settingsSection := true }
  else if sec = "progress" then { progressSection := true }
  else if sec = "results" then { resultsSection := true }
  else if sec = "error" then { errorSection := true }
  else {}

end VariantA

/-- Visibility of the five primary-flow panels of the richer variant. -/
structure Panels where
  uploadSection : Bool := false
  processSection : Bool := false
  progressSection : Bool := false
  resultsSection : Bool := false
  errorSection : Bool := false
deriving DecidableEq, Repr

/-- Embedding of `showSection` of the richer variant (second document of
`static/script.js`, lines 915-943). -/
def showSection (sec : String) (_prev : Panels) : Panels :=
  if sec = "upload" then { uploadSection := true }
  else if sec = "process" then { uploadSection := true, processSection := true }
  else if sec = "progress" then { progressSection := true }
  else if sec = "results" then { resultsSection := true }
  else if sec = "error" then { errorSection := true }
  else {}

/-- A browser `File`: name and byte size (the only fields the script reads). -/
structure File where
  name : String
  size : ℕ
deriving DecidableEq, Repr

/-- The labels array `['Bytes', 'KB', 'MB', 'GB']`; an out-of-range index
stringifies as `undefined` in JavaScript. -/
def sizeLabel (i : ℕ) : String := (["Bytes", "KB", "MB", "GB"].getD i "undefined")

/-- Embedding of `formatFileSize` (`static/script.js` lines 461-467 and
119-125, identical in both variants): `Math.floor(Math.log bytes /
Math.log 1024)` is the exact base-1024 floor logarithm `Nat.log 1024`. -/
def formatFileSize (bytes : ℕ) : String :=
  if bytes = 0 then "0 Bytes"
  else stripFixed2 ((bytes : ℚ) / 1024 ^ Nat.log 1024 bytes) ++ " " ++
    sizeLabel (Nat.log 1024 bytes)

/-- Per-campaign breakdown record inside `campaign_details` /
`campaignDetails`; every field may be missing (`data.x || 0` defaulting). -/
structure CampaignDetail where
  monograms : Option ℕ := none
  bigrams : Option ℕ := none
  trigrams : Option ℕ := none
  search_terms : Option ℕ := none
  spend : Option ℚ := none
  sales : Option ℚ := none
deriving DecidableEq, Repr

/-- The `summary` object of a `/upload` response (fields the client reads). -/
structure SummaryJson where
  original_rows : Option ℕ := none
  asins_removed : Option ℕ := none
  campaigns_processed : Option ℕ := none
  total_flagged : Option ℕ := none
  total_spend : Option ℚ := none
  total_sales : Option ℚ := none
  total_orders : Option ℕ := none
deriving DecidableEq, Repr

/-- Parsed JSON envelope of a `/upload` response. `campaign_details` keeps
the key order of the JSON object (`Object.entries` insertion order).
`campaigns` is `none` when the key is absent (then `result.campaigns
.forEach` throws), `some []` when present but empty. An absent `summary`
object is conflated with a present one whose fields are all absent: the
unguarded reads of `displayResults` throw in both cases and no other code
distinguishes them. -/
structure UploadResponse where
  success : Bool := false
  output_file : Option String := none
  asin_file : Option String := none
  error : Option String := none
  summary : SummaryJson := {}
  campaigns : Option (List String) := none
  campaign_details : Option (List (String × CampaignDetail)) := none
deriving DecidableEq, Repr

/-- The module-level `analyticsData` object built by `processFile` (spread
of `result.summary` plus campaigns, details and provenance), also the shape
read back by the analytics renderer. -/
structure AnalyticsData where
  original_rows : Option ℕ := none
  asins_removed : Option ℕ := none
  campaigns_processed : Option ℕ := none
  total_flagged : Option ℕ := none
  total_spend : Option ℚ := none
  total_sales : Option ℚ := none
  total_orders : Option ℕ := none
  campaigns : Option (List String) := none
  campaignDetails : List (String × CampaignDetail) := []
  filename : String := ""
  processedAt : String := ""
deriving DecidableEq, Repr

/-- A network request the script can issue via `fetch`. -/
inductive Request where
  | upload (file : File)
  | archiveCreate (filename originalFilename : String) (summary : AnalyticsData)
      (processedAt : String)
  | archiveList
deriving DecidableEq, Repr

/-- Module-level mutable state of the richer variant together with the DOM
text/classes the embedded operations write. -/
structure AppState where
  selectedFile : Option File := none
  outputFilename : Option String := none
  asinFilename : Option String := none
  lastProcessedData : Option UploadResponse := none
  analyticsData : Option AnalyticsData := none
  panels : Panels := {}
  fileInputValue : String := ""
  fileInfo : String := ""
  fileInfoSuccess : Bool := false
  progressText : String := ""
  errorMessage : String := ""
  archiveBtnDisabled : Bool := false
  asinBtnVisible : Bool := false
deriving DecidableEq, Repr

/-- Embedding of `showError` (lines 949-952): write the message and switch
the primary flow to the error panel. -/
def showError (message : String) (s : AppState) : AppState :=
  { s with errorMessage := message, panels := showSection "error" s.panels }

/-- Embedding of `handleFile` (lines 435-459): validate extension and size;
on failure report and abort, on success store the file, render its size and
reveal the process panel. Returns the requests issued (always none). -/
def handleFile (file : File) (s : AppState) : AppState × List Request :=
  if (jsEndsWith (jsToLowerCase file.name) ".csv") = false then
    (showError "Please upload a CSV file." s, [])
  else if 50 * 1024 * 1024 < file.size then
    (showError "File size exceeds 50MB limit." s, [])
  else
    ({ s with selectedFile := some file,
              fileInfo := "Selected: " ++ file.name ++ " (" ++
                formatFileSize file.size ++ ")",
              fileInfoSuccess := true,
              panels := { s.panels with processSection := true } }, [])

/-- Embedding of the `analyticsData` object literal built on a successful
upload (lines 499-505): spread of `result.summary`, the campaign list, the
detail map defaulted to empty, the source filename and a timestamp. -/
def mkAnalyticsData (result : UploadResponse) (filename now : String) : AnalyticsData :=
  { original_rows := result.summary.original_rows
    asins_removed := result.summary.asins_removed
    campaigns_processed := result.summary.campaigns_processed
    total_flagged := result.summary.total_flagged
    total_spend := result.summary.total_spend
    total_sales := result.summary.total_sales
    total_orders := result.summary.total_orders
    campaigns := result.campaigns
    campaignDetails := result.campaign_details.getD []
    filename := filename
    processedAt := now }

/-- Embedding of `processFile` (lines 469-515) together with the
`displayResults` call it makes (lines 517-547). `now` is the value
`new Date().toISOString()` would produce; `fetchResult` is the outcome of
the single `POST /upload` (`.error` = rejected fetch or `response.json()`
failure). On `success:true` the state assignments (lines 494-505) run
first; then `displayResults`, still inside the `try`, reads
`result.summary.original_rows` / `.asins_removed` / `.campaigns_processed`
(lines 519-521) and calls `result.campaigns.forEach` (line 530) with no
defaulting, so if any of these is absent a `TypeError` is thrown and the
`catch` (line 511) ends on the error panel with the network-error message,
leaving the ASIN-button visibility untouched; only when all four are
present does `displayResults` reach `showSection('results')`. -/
def processFile (s : AppState) (now : String)
    (fetchResult : Except Unit UploadResponse) : AppState × List Request :=
  match s.selectedFile with
  | none => (showError "Please select a file first." s, [])
  | some file =>
    let s1 : AppState :=
      { s with panels := showSection "progress" s.panels,
               progressText := "Processing CSV data..." }
    match fetchResult with
    | .error _ =>
      (showError "Network error. Please check your connection and try again." s1,
        [Request.upload file])
    | .ok result =>
      if result.success then
        let s2 : AppState :=
          { s1 with outputFilename := result.output_file,
                    asinFilename := result.asin_file,
                    lastProcessedData := some result,
                    analyticsData := some (mkAnalyticsData result file.name now) }
        if result.summary.original_rows.isSome &&
            result.summary.asins_removed.isSome &&
            result.summary.campaigns_processed.isSome &&
            result.campaigns.isSome then
          ({ s2 with asinBtnVisible := !(jsStrFalsy result.asin_file),
                     panels := showSection "results" s2.panels },
            [Request.upload file])
        else
          (showError "Network error. Please check your connection and try again." s2,
            [Request.upload file])
      else
        (showError (result.error.getD "An error occurred while processing the file.") s1,
          [Request.upload file])

/-- Embedding of `resetForm` (lines 954-986): null the file-selection
state, clear the file-input UI, restore the archive button and return to
the upload panel. (`lastProcessedData` and `analyticsData` are not touched
by the source.) -/
def resetForm (s : AppState) : AppState :=
  { s with selectedFile := none,
           outputFilename := none,
           asinFilename := none,
           fileInputValue := "",
           fileInfo := "",
           fileInfoSuccess := false,
           archiveBtnDisabled := false,
           asinBtnVisible := false,
           panels := showSection "upload" s.panels }

/-- Parsed JSON envelope of a `POST /archive` response. -/
structure ArchivePostResponse where
  success : Bool := false
  error : Option String := none
deriving DecidableEq, Repr

/-- Embedding of `archiveReport` (lines 586-639). The one-shot 2-second
revert of the button label is outside the model; the `disabled` flag
records the state right after a successful response. -/
def archiveReport (s : AppState) (now : String)
    (fetchResult : Except Unit ArchivePostResponse) : AppState × List Request :=
  if jsStrFalsy s.outputFilename || s.analyticsData.isNone then
    (showError "No report available to archive." s, [])
  else
    let req := Request.archiveCreate (s.outputFilename.getD "")
      (match s.selectedFile with | some f => f.name | none => "Unknown")
      (s.analyticsData.getD {}) now
    match fetchResult with
    | .error _ => (showError "Failed to archive report. Please try again." s, [req])
    | .ok result =>
      if result.success then ({ s with archiveBtnDisabled := true }, [req])
      else (showError (result.error.getD "Failed to archive report.") s, [req])

/-- One entry of the `GET /archive` response list. -/
structure ArchiveItem where
  id : String := ""
  filename : String := ""
  originalFilename : Option String := none
  processedAt : String := ""
  summary : Option SummaryJson := none
deriving DecidableEq, Repr

/-- Parsed JSON envelope of a `GET /archive` response. -/
structure ArchiveListResponse where
  success : Bool := false
  archives : Option (List ArchiveItem) := none
deriving DecidableEq, Repr

/-- The archive section's view: the two container visibilities and the
item data last rendered into the list. -/
structure ArchiveView where
  emptyVisible : Bool := false
  contentVisible : Bool := false
  listItems : List ArchiveItem := []
deriving DecidableEq, Repr

/-- Embedding of `loadArchive` (lines 641-711). The whole body sits in a
`try`/`catch` whose handler only logs, so a rejected fetch or JSON parse
failure (`.error`) leaves the view untouched; an empty JavaScript array is
truthy, so the guard is `success && archives && archives.length > 0`. -/
def loadArchive (v : ArchiveView)
    (fetchResult : Except Unit ArchiveListResponse) : ArchiveView :=
  match fetchResult with
  | .error _ => v
  | .ok result =>
    if result.success && result.archives.isSome &&
        !(result.archives.getD []).isEmpty then
      { v with emptyVisible := false, contentVisible := true,
               listItems := result.archives.getD [] }
    else
      { v with emptyVisible := true, contentVisible := false }

/-- One rendered card of the n-gram distribution grid: header, the three
bar-segment widths (as `toFixed(1)` percent strings) and the legend
counts. -/
structure DistCard where
  name : String
  monoPercent : String
  biPercent : String
  triPercent : String
  monoCount : ℕ
  biCount : ℕ
  triCount : ℕ
deriving DecidableEq, Repr

/-- Three-category n-gram total of a campaign (`(data.monograms || 0) +
(data.bigrams || 0) + (data.trigrams || 0)`). -/
def distTotal (d : CampaignDetail) : ℕ :=
  d.monograms.getD 0 + d.bigrams.getD 0 + d.trigrams.getD 0

/-- Card built for one `campaignDetails` entry by `updateDistributionGrid`
(lines 879-912); `none` when the entry is skipped (`if (total === 0)
return`). -/
def distCard (name : String) (d : CampaignDetail) : Option DistCard :=
  if distTotal d = 0 then none
  else some
    { name := name
      monoPercent := toFixed1 ((d.monograms.getD 0 : ℚ) / (distTotal d : ℚ) * 100)
      biPercent := toFixed1 ((d.bigrams.getD 0 : ℚ) / (distTotal d : ℚ) * 100)
      triPercent := toFixed1 ((d.trigrams.getD 0 : ℚ) / (distTotal d : ℚ) * 100)
      monoCount := d.monograms.getD 0
      biCount := d.bigrams.getD 0
      triCount := d.trigrams.getD 0 }

/-- Embedding of `updateDistributionGrid` (lines 871-913) as the list of
cards appended to the cleared grid, in `Object.entries` order. -/
def updateDistributionGrid (details : List (String × CampaignDetail)) : List DistCard :=
  details.filterMap fun nd => distCard nd.1 nd.2

/-- Embedding of the ACOS text written by `updateAnalyticsSection` (lines
816-819): `sales > 0 ? ((spend / sales) * 100).toFixed(1) : '0'` with the
`%` suffix; `parseFloat(x) || 0` on a possibly missing number is
`Option.getD 0`. -/
def updateAnalyticsSectionAcos (ad : AnalyticsData) : String :=
  (if 0 < ad.total_sales.getD 0 then
    toFixed1 (ad.total_spend.getD 0 / ad.total_sales.getD 0 * 100)
  else "0") ++ "%"

/-- Evaluation helper: `toFixed(1)` via the rounded tenths value. -/
theorem toFixed1_eval (q : ℚ) (n : ℕ) (h : ⌊q * 10 + 1/2⌋ = (n : ℤ)) :
    toFixed1 q = toFixed1Nat n := by
  simp only [toFixed1, h, Int.toNat_natCast]

/-- Evaluation helper: `parseFloat(x.toFixed(2))` via the rounded
hundredths value. -/
theorem stripFixed2_eval (q : ℚ) (n : ℕ) (h : ⌊q * 100 + 1/2⌋ = (n : ℤ)) :
    stripFixed2 q = stripFixed2Nat n := by
  simp only [stripFixed2, h, Int.toNat_natCast]

/-- C1 counterexample: a `success:true` response whose `summary` carries
none of the counts `displayResults` reads unguarded makes the code throw
inside the `try` and end on the error panel, not the results panel — so
"after a successful `/upload` response exactly the results panel is
visible" is false of the program as universally stated. -/
theorem processFile_success_missing_summary_cex :
    ((processFile { selectedFile := some { name := "report.csv", size := 10 } }
        "2026-01-01T00:00:00Z" (Except.ok { success := true })).1).panels =
      { errorSection := true } ∧
    ((processFile { selectedFile := some { name := "report.csv", size := 10 } }
        "2026-01-01T00:00:00Z" (Except.ok { success := true })).1).panels ≠
      { resultsSection := true } := by
  decide

/-- C1 (amended): every call of `showSection` hides all primary-flow
panels and then shows exactly the panels the requested state implies —
`process` (`settings` in the simpler variant) shows the upload box together
with the process/settings panel, every other recognized state shows
exactly one panel. A successful `/upload` response whose envelope carries
the summary counts (`original_rows`, `asins_removed`,
`campaigns_processed`) and the `campaigns` list that `displayResults`
reads leaves exactly the results panel visible; a `success:true` response
missing any of them throws inside the `try` and, like every other error
path (server `success:false`, network failure, any `showError` call),
leaves exactly the error panel visible. -/
theorem showSection_exact_panels :
    (∀ p : Panels,
      showSection "upload" p = { uploadSection := true } ∧
      showSection "process" p = { uploadSection := true, processSection := true } ∧
      showSection "progress" p = { progressSection := true } ∧
      showSection "results" p = { resultsSection := true } ∧
      showSection "error" p = { errorSection := true }) ∧
    (∀ p : VariantA.Panels,
      VariantA.showSection "upload" p = { uploadSection := true } ∧
      VariantA.showSection "settings" p =
        { uploadSection := true, settingsSection := true } ∧
      VariantA.showSection "progress" p = { progressSection := true } ∧
      VariantA.showSection "results" p = { resultsSection := true } ∧
      VariantA.showSection "error" p = { errorSection := true }) ∧
    (∀ (s : AppState) (now : String) (f : File) (result : UploadResponse),
      s.selectedFile = some f → result.success = true →
      result.summary.original_rows.isSome = true →
      result.summary.asins_removed.isSome = true →
      result.summary.campaigns_processed.isSome = true →
      result.campaigns.isSome = true →
      ((processFile s now (Except.ok result)).1).panels = { resultsSection := true }) ∧
    (∀ (s : AppState) (now : String) (f : File) (result : UploadResponse),
      s.selectedFile = some f → result.success = true →
      (result.summary.original_rows.isSome &&
        result.summary.asins_removed.isSome &&
        result.summary.campaigns_processed.isSome &&
        result.campaigns.isSome) = false →
      ((processFile s now (Except.ok result)).1).panels = { errorSection := true }) ∧
    (∀ (s : AppState) (now : String) (f : File) (result : UploadResponse),
      s.selectedFile = some f → result.success = false →
      ((processFile s now (Except.ok result)).1).panels = { errorSection := true }) ∧
    (∀ (s : AppState) (now : String) (f : File),
      s.selectedFile = some f →
      ((processFile s now (Except.error ())).1).panels = { errorSection := true }) ∧
    (∀ (msg : String) (s : AppState),
      (showError msg s).panels = { errorSection := true }) := by
  refine ⟨fun p => ⟨rfl, rfl, rfl, rfl, rfl⟩, fun p => ⟨rfl, rfl, rfl, rfl, rfl⟩,
    ?_, ?_, ?_, ?_, fun msg s => rfl⟩
  · intro s now f result hsel hsucc h1 h2 h3 h4
    unfold processFile
    rw [hsel]
    simp [hsucc, h1, h2, h3, h4, showSection, showError]
  · intro s now f result hsel hsucc hcond
    unfold processFile
    rw [hsel]
    simp [hsucc, hcond, showSection, showError]
  · intro s now f result hsel hsucc
    unfold processFile
    rw [hsel]
    simp [hsucc, showSection, showError]
  · intro s now f hsel
    unfold processFile
    rw [hsel]
    simp [showSection, showError]

theorem showSection_exact_panels_witness :
    ((processFile { selectedFile := some { name := "report.csv", size := 10 } }
        "2026-01-01T00:00:00Z"
        (Except.ok { success := true,
                     summary := { original_rows := some 100,
                                  asins_removed := some 5,
                                  campaigns_processed := some 3 },
                     campaigns := some ["Campaign A"] })).1).panels =
      { resultsSection := true } ∧
    ((processFile { selectedFile := some { name := "report.csv", size := 10 } }
        "2026-01-01T00:00:00Z" (Except.ok { success := true })).1).panels =
      { errorSection := true } ∧
    ((processFile { selectedFile := some { name := "report.csv", size := 10 } }
        "2026-01-01T00:00:00Z" (Except.ok { success := false })).1).panels =
      { errorSection := true } ∧
    ((processFile { selectedFile := some { name := "report.csv", size := 10 } }
        "2026-01-01T00:00:00Z" (Except.error ())).1).panels =
      { errorSection := true } ∧
    (showError "boom" {}).panels = { errorSection := true } :=
  ⟨showSection_exact_panels.2.2.1 _ _ _ _ rfl rfl rfl rfl rfl rfl,
   showSection_exact_panels.2.2.2.1 _ _ _ _ rfl rfl rfl,
   showSection_exact_panels.2.2.2.2.1 _ _ _ _ rfl rfl,
   showSection_exact_panels.2.2.2.2.2.1 _ _ _ rfl,
   showSection_exact_panels.2.2.2.2.2.2 "boom" {}⟩

/-- C10: for any argument outside the recognized primary-flow state names
(`upload`/`process`/`progress`/`results`/`error` in the richer variant,
`upload`/`settings`/`progress`/`results`/`error` in the simpler one),
`showSection` hides every primary-flow panel and shows none. -/
theorem showSection_unknown_hides_all :
    (∀ sec : String, sec ∉ ["upload", "process", "progress", "results", "error"] →
      ∀ p : Panels, showSection sec p = {}) ∧
    (∀ sec : String, sec ∉ ["upload", "settings", "progress", "results", "error"] →
      ∀ p : VariantA.Panels, VariantA.showSection sec p = {}) := by
  constructor
  · intro sec h p
    have h1 : sec ≠ "upload" := by intro e; subst e; exact h (by decide)
    have h2 : sec ≠ "process" := by intro e; subst e; exact h (by decide)
    have h3 : sec ≠ "progress" := by intro e; subst e; exact h (by decide)
    have h4 : sec ≠ "results" := by intro e; subst e; exact h (by decide)
    have h5 : sec ≠ "error" := by intro e; subst e; exact h (by decide)
    simp [showSection, h1, h2, h3, h4, h5]
  · intro sec h p
    have h1 : sec ≠ "upload" := by intro e; subst e; exact h (by decide)
    have h2 : sec ≠ "settings" := by intro e; subst e; exact h (by decide)
    have h3 : sec ≠ "progress" := by intro e; subst e; exact h (by decide)
    have h4 : sec ≠ "results" := by intro e; subst e; exact h (by decide)
    have h5 : sec ≠ "error" := by intro e; subst e; exact h (by decide)
    simp [VariantA.showSection, h1, h2, h3, h4, h5]

theorem showSection_unknown_hides_all_witness :
    showSection "bogus" { uploadSection := true, errorSection := true } = {} ∧
    VariantA.showSection "bogus" { settingsSection := true } = {} :=
  ⟨showSection_unknown_hides_all.1 "bogus" (by decide) _,
   showSection_unknown_hides_all.2 "bogus" (by decide) _⟩

/-- C2 counterexample: after a reachable successful upload, `resetForm`
leaves `analyticsData` and `lastProcessedData` populated, so the claim that
reset returns them to their initial null state is false on the code. -/
theorem resetForm_retains_analytics_cex :
    (resetForm (processFile
        { selectedFile := some { name := "report.csv", size := 100 } }
        "2026-01-01T00:00:00Z"
        (Except.ok { success := true, output_file := some "out.csv" })).1).analyticsData
      ≠ none ∧
    (resetForm (processFile
        { selectedFile := some { name := "report.csv", size := 100 } }
        "2026-01-01T00:00:00Z"
        (Except.ok { success := true, output_file := some "out.csv" })).1).lastProcessedData
      ≠ none := by
  exact ⟨Option.some_ne_none _, Option.some_ne_none _⟩

/-- C2 (amended): `resetForm` clears `selectedFile`, `outputFilename` and
`asinFilename` (and the file-input UI state) back to their initial values,
but retains `lastProcessedData` and `analyticsData` unchanged. -/
theorem resetForm_clears_file_state :
    ∀ s : AppState,
      (resetForm s).selectedFile = none ∧
      (resetForm s).outputFilename = none ∧
      (resetForm s).asinFilename = none ∧
      (resetForm s).fileInputValue = "" ∧
      (resetForm s).fileInfo = "" ∧
      (resetForm s).lastProcessedData = s.lastProcessedData ∧
      (resetForm s).analyticsData = s.analyticsData :=
  fun _ => ⟨rfl, rfl, rfl, rfl, rfl, rfl, rfl⟩

/-- C3: a file whose lower-cased name does not end in `.csv`, or whose size
exceeds 52,428,800 bytes, makes `handleFile` report a client-visible error
and abort: `selectedFile` is unchanged and no network request is issued. -/
theorem handleFile_rejects_invalid :
    (∀ (file : File) (s : AppState),
      jsEndsWith (jsToLowerCase file.name) ".csv" = false →
      (handleFile file s).1.selectedFile = s.selectedFile ∧
      (handleFile file s).1.errorMessage = "Please upload a CSV file." ∧
      (handleFile file s).1.panels = { errorSection := true } ∧
      (handleFile file s).2 = []) ∧
    (∀ (file : File) (s : AppState),
      50 * 1024 * 1024 < file.size →
      (handleFile file s).1.selectedFile = s.selectedFile ∧
      (handleFile file s).1.panels = { errorSection := true } ∧
      (handleFile file s).2 = [] ∧
      (jsEndsWith (jsToLowerCase file.name) ".csv" = true →
        (handleFile file s).1.errorMessage = "File size exceeds 50MB limit.")) := by
  constructor
  · intro file s h
    simp [handleFile, h, showError, showSection]
  · intro file s hsize
    cases hcsv : jsEndsWith (jsToLowerCase file.name) ".csv" with
    | false => simp [handleFile, hcsv, showError, showSection]
    | true => simp [handleFile, hcsv, hsize, showError, showSection]

theorem handleFile_rejects_invalid_witness :
    (handleFile { name := "Data.TXT", size := 10 } {}).1.selectedFile = none ∧
    (handleFile { name := "Data.TXT", size := 10 } {}).1.errorMessage =
      "Please upload a CSV file." ∧
    (handleFile { name := "big.csv", size := 52428801 } {}).1.errorMessage =
      "File size exceeds 50MB limit." ∧
    (handleFile { name := "big.csv", size := 52428801 } {}).2 = [] :=
  ⟨(handleFile_rejects_invalid.1 { name := "Data.TXT", size := 10 } {} (by decide)).1,
   (handleFile_rejects_invalid.1 { name := "Data.TXT", size := 10 } {} (by decide)).2.1,
   (handleFile_rejects_invalid.2 { name := "big.csv", size := 52428801 } {}
      (by decide)).2.2.2 (by decide),
   (handleFile_rejects_invalid.2 { name := "big.csv", size := 52428801 } {}
      (by decide)).2.2.1⟩

/-- C4: with no file selected, `processFile` reports the selection error,
issues no network request, and leaves `outputFilename` and `analyticsData`
unchanged. -/
theorem processFile_requires_file :
    ∀ (s : AppState) (now : String) (r : Except Unit UploadResponse),
      s.selectedFile = none →
      (processFile s now r).1.errorMessage = "Please select a file first." ∧
      (processFile s now r).1.panels = { errorSection := true } ∧
      (processFile s now r).2 = [] ∧
      (processFile s now r).1.outputFilename = s.outputFilename ∧
      (processFile s now r).1.analyticsData = s.analyticsData := by
  intro s now r h
  unfold processFile
  rw [h]
  simp [showError, showSection]

theorem processFile_requires_file_witness :
    (processFile {} "2026-01-01T00:00:00Z" (Except.error ())).1.errorMessage =
      "Please select a file first." ∧
    (processFile {} "2026-01-01T00:00:00Z" (Except.error ())).2 = [] :=
  ⟨(processFile_requires_file {} "2026-01-01T00:00:00Z" (Except.error ()) rfl).1,
   (processFile_requires_file {} "2026-01-01T00:00:00Z" (Except.error ()) rfl).2.2.1⟩

/-- C8: with no processed report (`outputFilename` null) or no analytics
snapshot (`analyticsData` null), `archiveReport` reports an error locally
and issues no network request. -/
theorem archiveReport_requires_report :
    ∀ (s : AppState) (now : String) (r : Except Unit ArchivePostResponse),
      s.outputFilename = none ∨ s.analyticsData = none →
      (archiveReport s now r).1.errorMessage = "No report available to archive." ∧
      (archiveReport s now r).1.panels = { errorSection := true } ∧
      (archiveReport s now r).2 = [] := by
  intro s now r h
  have hguard : (jsStrFalsy s.outputFilename || s.analyticsData.isNone) = true := by
    rcases h with h | h <;> simp [h, jsStrFalsy]
  simp [archiveReport, hguard, showError, showSection]

theorem archiveReport_requires_report_witness :
    (archiveReport {} "2026-01-01T00:00:00Z" (Except.ok {})).1.errorMessage =
      "No report available to archive." ∧
    (archiveReport {} "2026-01-01T00:00:00Z" (Except.ok {})).2 = [] :=
  ⟨(archiveReport_requires_report {} "2026-01-01T00:00:00Z" (Except.ok {}) (Or.inl rfl)).1,
   (archiveReport_requires_report {} "2026-01-01T00:00:00Z" (Except.ok {}) (Or.inl rfl)).2.2⟩

/-- C9: `loadArchive` never propagates an exception — every fetch outcome
yields a view. A network or parse failure leaves the prior view unchanged;
an unsuccessful or empty response shows the empty placeholder instead of
the list; a successful non-empty response shows the rendered list. -/
theorem loadArchive_spec :
    (∀ v : ArchiveView, loadArchive v (Except.error ()) = v) ∧
    (∀ (v : ArchiveView) (r : ArchiveListResponse),
      r.success = false ∨ r.archives = none ∨ r.archives = some [] →
      loadArchive v (Except.ok r) =
        { v with emptyVisible := true, contentVisible := false }) ∧
    (∀ (v : ArchiveView) (r : ArchiveListResponse) (items : List ArchiveItem),
      r.success = true → r.archives = some items → items ≠ [] →
      loadArchive v (Except.ok r) =
        { v with emptyVisible := false, contentVisible := true,
                 listItems := items }) := by
  refine ⟨fun v => rfl, ?_, ?_⟩
  · intro v r h
    rcases h with h | h | h <;> simp [loadArchive, h]
  · intro v r items h1 h2 h3
    cases items with
    | nil => exact absurd rfl h3
    | cons a l => simp [loadArchive, h1, h2]

theorem loadArchive_spec_witness :
    loadArchive {} (Except.ok { success := false }) =
      { emptyVisible := true, contentVisible := false } ∧
    loadArchive { contentVisible := true } (Except.error ()) =
      { contentVisible := true } ∧
    loadArchive {} (Except.ok { success := true, archives := some [{ id := "1" }] }) =
      { emptyVisible := false, contentVisible := true, listItems := [{ id := "1" }] } :=
  ⟨loadArchive_spec.2.1 {} { success := false } (Or.inl rfl),
   loadArchive_spec.1 { contentVisible := true },
   loadArchive_spec.2.2 {} { success := true, archives := some [{ id := "1" }] }
     [{ id := "1" }] rfl rfl (by simp)⟩

/-- C6: the ACOS text of the analytics view equals `spend / sales * 100`
rendered by `toFixed(1)` with a `%` suffix whenever `sales > 0`, and is
`"0%"` whenever `total_sales` is zero or absent; in particular spend 50 /
sales 0 renders `"0%"` and spend 50 / sales 200 renders `"25.0%"`. -/
theorem updateAnalyticsSection_acos_spec :
    (∀ ad : AnalyticsData, ad.total_sales = none ∨ ad.total_sales = some 0 →
      updateAnalyticsSectionAcos ad = "0%") ∧
    (∀ (ad : AnalyticsData) (sal : ℚ), ad.total_sales = some sal → 0 < sal →
      updateAnalyticsSectionAcos ad =
        toFixed1 (ad.total_spend.getD 0 / sal * 100) ++ "%") ∧
    updateAnalyticsSectionAcos { total_spend := some 50, total_sales := some 0 } = "0%" ∧
    updateAnalyticsSectionAcos { total_spend := some 50, total_sales := some 200 } =
      "25.0%" := by
  have hzero : ∀ ad : AnalyticsData, ad.total_sales = none ∨ ad.total_sales = some 0 →
      updateAnalyticsSectionAcos ad = "0%" := by
    intro ad h
    rcases h with h | h <;> simp [updateAnalyticsSectionAcos, h]
  have hpos : ∀ (ad : AnalyticsData) (sal : ℚ), ad.total_sales = some sal → 0 < sal →
      updateAnalyticsSectionAcos ad =
        toFixed1 (ad.total_spend.getD 0 / sal * 100) ++ "%" := by
    intro ad sal hsal hp
    simp [updateAnalyticsSectionAcos, hsal, hp]
  refine ⟨hzero, hpos, hzero _ (Or.inr rfl), ?_⟩
  rw [hpos { total_spend := some 50, total_sales := some 200 } 200 rfl (by norm_num),
    toFixed1_eval _ 250 (by norm_num [Option.getD])]
  decide

theorem updateAnalyticsSection_acos_spec_witness :
    updateAnalyticsSectionAcos { total_sales := some 0 } = "0%" ∧
    updateAnalyticsSectionAcos { total_spend := some 10, total_sales := some 40 } =
      toFixed1 (((some (10 : ℚ)).getD 0) / 40 * 100) ++ "%" :=
  ⟨updateAnalyticsSection_acos_spec.1 { total_sales := some 0 } (Or.inr rfl),
   updateAnalyticsSection_acos_spec.2.1 { total_spend := some 10, total_sales := some 40 }
     40 rfl (by norm_num)⟩

/-- C5: `updateDistributionGrid` skips every campaign whose
monogram+bigram+trigram total is zero; every other campaign is rendered
with each category's percentage computed as count over the three-category
total times 100, `toFixed(1)`; and for counts (1,1,2) the three rendered
percentages are 25.0, 25.0 and 50.0, which sum to exactly 100. -/
theorem updateDistributionGrid_spec :
    (∀ (name : String) (d : CampaignDetail), distTotal d = 0 →
      distCard name d = none) ∧
    (∀ (name : String) (d : CampaignDetail), distTotal d ≠ 0 →
      distCard name d = some
        { name := name
          monoPercent := toFixed1 ((d.monograms.getD 0 : ℚ) / (distTotal d : ℚ) * 100)
          biPercent := toFixed1 ((d.bigrams.getD 0 : ℚ) / (distTotal d : ℚ) * 100)
          triPercent := toFixed1 ((d.trigrams.getD 0 : ℚ) / (distTotal d : ℚ) * 100)
          monoCount := d.monograms.getD 0
          biCount := d.bigrams.getD 0
          triCount := d.trigrams.getD 0 }) ∧
    updateDistributionGrid
        [("Campaign A", { monograms := some 1, bigrams := some 1, trigrams := some 2 })] =
      [{ name := "Campaign A", monoPercent := "25.0", biPercent := "25.0",
         triPercent := "50.0", monoCount := 1, biCount := 1, triCount := 2 }] ∧
    toFixed1Q ((1 : ℚ) / 4 * 100) + toFixed1Q ((1 : ℚ) / 4 * 100) +
      toFixed1Q ((2 : ℚ) / 4 * 100) = 100 := by
  refine ⟨?_, ?_, ?_, ?_⟩
  · intro name d h
    simp [distCard, h]
  · intro name d h
    simp [distCard, h]
  · have e1 : toFixed1 (((1 : ℚ) + 1 + 2)⁻¹ * 100) = "25.0" := by
      rw [toFixed1_eval _ 250 (by norm_num)]; decide
    have e2 : toFixed1 (2 / ((1 : ℚ) + 1 + 2) * 100) = "50.0" := by
      rw [toFixed1_eval _ 500 (by norm_num)]; decide
    simp [updateDistributionGrid, distCard, distTotal, e1, e2]
  · norm_num [toFixed1Q]

theorem updateDistributionGrid_spec_witness :
    distCard "Empty" {} = none ∧
    distCard "A" { monograms := some 1, bigrams := some 1, trigrams := some 2 } ≠ none :=
  ⟨updateDistributionGrid_spec.1 "Empty" {} rfl,
   fun hc => Option.noConfusion
     ((updateDistributionGrid_spec.2.1 "A"
        { monograms := some 1, bigrams := some 1, trigrams := some 2 }
        (by decide)).symm.trans hc)⟩

/-- C7 counterexample: at 2·1024⁴ bytes the floor logarithm is 4, the label
array runs out, and the code renders the unit as the string `undefined`,
which is none of Bytes/KB/MB/GB — so the claim's unit set is wrong for
inputs of a terabyte and beyond. -/
theorem formatFileSize_unit_cex :
    formatFileSize (2 * 1024 ^ 4) = "2 undefined" ∧
    jsEndsWith "2 undefined" " Bytes" = false ∧
    jsEndsWith "2 undefined" " KB" = false ∧
    jsEndsWith "2 undefined" " MB" = false ∧
    jsEndsWith "2 undefined" " GB" = false := by
  have hlog : Nat.log 1024 (2 * 1024 ^ 4) = 4 :=
    Nat.log_eq_of_pow_le_of_lt_pow (by norm_num) (by norm_num)
  refine ⟨?_, by decide, by decide, by decide, by decide⟩
  unfold formatFileSize
  rw [if_neg (by decide), hlog, stripFixed2_eval _ 200 (by norm_num)]
  decide

/-- C7 (amended): for byte counts below 1024⁴ (the GB range and below),
`formatFileSize` renders using 1024-based units from Bytes/KB/MB/GB with at
most two decimals and trailing zeros stripped; in particular 0 renders as
`"0 Bytes"`, 1536 as `"1.5 KB"`, and 1048576 as `"1 MB"`. Beyond 1024⁴ the
unit degenerates to the string `undefined`. -/
theorem formatFileSize_spec :
    (∀ b : ℕ, 0 < b → b < 1024 ^ 4 →
      formatFileSize b =
        stripFixed2 ((b : ℚ) / 1024 ^ Nat.log 1024 b) ++ " " ++
          sizeLabel (Nat.log 1024 b) ∧
      sizeLabel (Nat.log 1024 b) ∈ ["Bytes", "KB", "MB", "GB"]) ∧
    formatFileSize 0 = "0 Bytes" ∧
    formatFileSize 1536 = "1.5 KB" ∧
    formatFileSize 1048576 = "1 MB" := by
  refine ⟨?_, rfl, ?_, ?_⟩
  · intro b hb0 hb4
    refine ⟨?_, ?_⟩
    · unfold formatFileSize
      rw [if_neg hb0.ne']
    · have hlt : Nat.log 1024 b < 4 := Nat.log_lt_of_lt_pow hb0.ne' hb4
      have hall : ∀ i, i < 4 → sizeLabel i ∈ ["Bytes", "KB", "MB", "GB"] := by decide
      exact hall _ hlt
  · have hlog : Nat.log 1024 1536 = 1 :=
      Nat.log_eq_of_pow_le_of_lt_pow (by norm_num) (by norm_num)
    unfold formatFileSize
    rw [if_neg (by decide), hlog, stripFixed2_eval _ 150 (by norm_num)]
    decide
  · have hlog : Nat.log 1024 1048576 = 2 :=
      Nat.log_eq_of_pow_le_of_lt_pow (by norm_num) (by norm_num)
    unfold formatFileSize
    rw [if_neg (by decide), hlog, stripFixed2_eval _ 100 (by norm_num)]
    decide

theorem formatFileSize_spec_witness :
    formatFileSize 1536 =
      stripFixed2 (((1536 : ℕ) : ℚ) / 1024 ^ Nat.log 1024 1536) ++ " " ++
        sizeLabel (Nat.log 1024 1536) ∧
    sizeLabel (Nat.log 1024 1536) ∈ ["Bytes", "KB", "MB", "GB"] :=
  formatFileSize_spec.1 1536 (by norm_num) (by norm_num)

